import Mathlib

/-!
Verification of the pricing/discount core of the Wakaraku hotel pricing
calculator (`src/app.py`).

The computational core consists of three helper functions, `parse_price`,
`parse_discount` and `apply_discount`, together with the aggregation block
that computes per-category room, meal and extra-charge subtotals and their
grand total.  All monetary values are Python floats; we model them as
rationals (ℚ), on which the arithmetic of the program (addition,
subtraction, multiplication, division by 100, `max` with 0) is exact.

Strings are modelled as Lean `String`s, with all text processing carried
out on the underlying character lists:
  * Python's `str.strip()` is `pyStrip` (drop leading and trailing
    whitespace);
  * `s.replace("¥", "").replace(",", "")` is `removeMoneyChars` (deleting
    every occurrence of a single character is filtering it out);
  * Python's `float(...)` builtin applied to the cleaned text is
    `pyFloat?`, which accepts an optionally signed decimal literal
    (`digits`, `digits.`, `digits.digits`, `.digits`) with an optional
    exponent part, surrounded by optional whitespace, and fails (`none`)
    on anything else, as `float` raises `ValueError` there.  (The exotic
    inputs `inf`/`nan` and underscore digit separators accepted by
    CPython are not modelled; no claim depends on them.)  The literal is
    first recognised into its numeric components (`pyFloatParse?`,
    returning a `FloatLit`) and its rational value is then assembled by
    `FloatLit.val`.
-/

namespace Wakaraku

/-- Numeric value of a list of decimal digit characters (most significant
first), as in positional base-10 reading. -/
def digitsVal (ds : List Char) : ℕ :=
  ds.foldl (fun n c => 10 * n + (c.toNat - 48)) 0

/-- Python `str.strip()`: remove leading and trailing whitespace. -/
def pyStrip (cs : List Char) : List Char :=
  ((cs.dropWhile Char.isWhitespace).reverse.dropWhile Char.isWhitespace).reverse

/-- `s.replace("¥", "").replace(",", "")`: delete every currency glyph
and every group separator. -/
def removeMoneyChars (cs : List Char) : List Char :=
  cs.filter (fun c => !(c == '¥' || c == ','))

/-- The numeric components of a recognised float literal: sign, integer
part, fraction part with its digit count, and exponent. -/
structure FloatLit where
  neg : Bool
  ip : ℕ
  fp : ℕ
  fplen : ℕ
  exp : ℤ
deriving DecidableEq

/-- The rational value denoted by a float literal:
`±(ip + fp/10^fplen) · 10^exp`. -/
def FloatLit.val (f : FloatLit) : ℚ :=
  (if f.neg then -1 else 1) * ((f.ip : ℚ) + (f.fp : ℚ) / (10 : ℚ) ^ f.fplen)
    * (10 : ℚ) ^ f.exp

/-- Strip one optional leading sign; returns (isNegative, rest). -/
def stripSign (cs : List Char) : Bool × List Char :=
  match cs with
  | '+' :: r => (false, r)
  | '-' :: r => (true, r)
  | _ => (false, cs)

/-- Parse the mantissa of a float literal: `digits`, `digits.`,
`digits.digits` or `.digits`.  Returns (integer part, fraction part,
fraction digit count) and the unconsumed suffix; fails if no digit is
present. -/
def mantissa? (cs : List Char) : Option ((ℕ × ℕ × ℕ) × List Char) :=
  let ip := cs.takeWhile Char.isDigit
  let r1 := cs.dropWhile Char.isDigit
  match r1 with
  | '.' :: r2 =>
      let fp := r2.takeWhile Char.isDigit
      let r3 := r2.dropWhile Char.isDigit
      if ip.isEmpty && fp.isEmpty then none
      else some ((digitsVal ip, digitsVal fp, fp.length), r3)
  | _ => if ip.isEmpty then none else some ((digitsVal ip, 0, 0), r1)

/-- Parse the text after the `e`/`E` of an exponent part: an optionally
signed digit string, optionally followed by trailing whitespace. -/
def expval? (cs : List Char) : Option ℤ :=
  let p := stripSign cs
  let ds := p.2.takeWhile Char.isDigit
  let r := p.2.dropWhile Char.isDigit
  if ds.isEmpty || !(r.all Char.isWhitespace) then none
  else some (if p.1 then -(digitsVal ds : ℤ) else (digitsVal ds : ℤ))

/-- Recognise a float literal: optional whitespace, optional sign,
mantissa, optional exponent, optional trailing whitespace; `none` on any
malformed input. -/
def pyFloatParse? (cs : List Char) : Option FloatLit :=
  let t := cs.dropWhile Char.isWhitespace
  let p := stripSign t
  match mantissa? p.2 with
  | none => none
  | some (m, rest) =>
      match rest with
      | [] => some ⟨p.1, m.1, m.2.1, m.2.2, 0⟩
      | c :: r2 =>
          if c == 'e' || c == 'E' then
            match expval? r2 with
            | none => none
            | some e => some ⟨p.1, m.1, m.2.1, m.2.2, e⟩
          else if rest.all Char.isWhitespace then some ⟨p.1, m.1, m.2.1, m.2.2, 0⟩
          else none

/-- Python's `float(...)` builtin on decimal literals. -/
def pyFloat? (cs : List Char) : Option ℚ :=
  (pyFloatParse? cs).map FloatLit.val

/-- `parse_price` (src/app.py lines 56–65): clean the text of `¥` and `,`,
strip whitespace, convert with `float`; return 0.0 when that fails. -/
def parse_price (s : String) : ℚ :=
  match pyFloat? (pyStrip (removeMoneyChars s.data)) with
  | some v => v
  | none => 0

/-- Python `inp.endswith("%")`. -/
def endsWithPercent (cs : List Char) : Bool :=
  cs.getLast? == some '%'

/-- `parse_discount` (src/app.py lines 67–89): trim; a trailing `%` means
a percentage discount whose prefix (`inp[:-1]`) is converted with `float`,
degrading to `(False, 0.0)` on failure; otherwise the text is cleaned of
`¥` and `,` like a price and converted, again degrading to `(False, 0.0)`.
The result pair is `(is_percent, value)`. -/
def parse_discount (s : String) : Bool × ℚ :=
  let inp := pyStrip s.data
  if endsWithPercent inp then
    match pyFloat? inp.dropLast with
    | some v => (true, v)
    | none => (false, 0)
  else
    match pyFloat? (pyStrip (removeMoneyChars inp)) with
    | some v => (false, v)
    | none => (false, 0)

/-- `apply_discount` (src/app.py lines 91–104): subtract a percentage or
absolute discount from the base price and floor the result at 0. -/
def apply_discount (base_price : ℚ) (discount_str : String) : ℚ :=
  let pd := parse_discount discount_str
  let discounted_price :=
    if pd.1 then base_price - (base_price * (pd.2 / 100))
    else base_price - pd.2
  max discounted_price 0

/-- One extra-charge line item, as collected into `adult_extra_items` /
`child_extra_items` (src/app.py lines 185–190, 212–217): display name,
free-text cost, quantity and free-text discount. -/
structure ExtraItem where
  name : String
  cost_str : String
  qty : ℕ
  discount_str : String

/-- The body of the extra-charges loop (src/app.py lines 254–257):
`line_total = apply_discount(parse_price(cost_str), discount_str) * qty`. -/
def line_total (item : ExtraItem) : ℚ :=
  apply_discount (parse_price item.cost_str) item.discount_str * item.qty

/-- The extra-charges accumulation loop (src/app.py lines 252–258 and
263–268): starting from 0, add each item's line total. -/
def total_extras (items : List ExtraItem) : ℚ :=
  items.foldl (fun acc item => acc + line_total item) 0

/-- The inputs the calculation block reads when the button is pressed:
room base price and discount texts and guest counts, meal price texts and
meal counts, and the two extra-charge item lists. -/
structure QuoteRequest where
  adult_base_str : String
  adult_discount_str : String
  num_adults : ℕ
  child_base_str : String
  child_discount_str : String
  num_children : ℕ
  adult_breakfast_str : String
  adults_breakfast_count : ℕ
  adult_dinner_str : String
  adults_dinner_count : ℕ
  child_breakfast_str : String
  children_breakfast_count : ℕ
  child_dinner_str : String
  children_dinner_count : ℕ
  adult_extra_items : List ExtraItem
  child_extra_items : List ExtraItem

/-- `total_adult_cost` (src/app.py lines 228–233):
`apply_discount(parse_price(adult_base_str), adult_discount_str) * num_adults`. -/
def total_adult_cost (r : QuoteRequest) : ℚ :=
  apply_discount (parse_price r.adult_base_str) r.adult_discount_str * r.num_adults

/-- `total_child_cost` (src/app.py lines 229–234). -/
def total_child_cost (r : QuoteRequest) : ℚ :=
  apply_discount (parse_price r.child_base_str) r.child_discount_str * r.num_children

/-- `total_adult_meal_cost` (src/app.py lines 239–245): breakfast price ×
breakfast count + dinner price × dinner count, undiscounted. -/
def total_adult_meal_cost (r : QuoteRequest) : ℚ :=
  parse_price r.adult_breakfast_str * r.adults_breakfast_count
    + parse_price r.adult_dinner_str * r.adults_dinner_count

/-- `total_child_meal_cost` (src/app.py lines 241–247). -/
def total_child_meal_cost (r : QuoteRequest) : ℚ :=
  parse_price r.child_breakfast_str * r.children_breakfast_count
    + parse_price r.child_dinner_str * r.children_dinner_count

/-- `grand_total` (src/app.py lines 273–275): the sum of the six
subtotals. -/
def grand_total (r : QuoteRequest) : ℚ :=
  total_adult_cost r + total_child_cost r
    + total_adult_meal_cost r + total_child_meal_cost r
    + total_extras r.adult_extra_items + total_extras r.child_extra_items

/-- Modelled from the spec: src/app.py contains no cost-per-guest
computation; §4.4 of the spec defines
`costPerGuest = grandTotal / (adultCount + childCount)` when the total
guest count is positive, else 0. -/
def cost_per_guest (r : QuoteRequest) : ℚ :=
  if 0 < r.num_adults + r.num_children then
    grand_total r / ((r.num_adults : ℚ) + (r.num_children : ℚ))
  else 0

/-- The characters that can occur in a string accepted by `pyFloat?`:
whitespace, a sign, a digit, the decimal point, or an exponent marker. -/
def floatChar (c : Char) : Bool :=
  c.isWhitespace || c.isDigit || c == '+' || c == '-' || c == '.'
    || c == 'e' || c == 'E'

/-- A request with every text field "0", every count 0 and no extra
items; concrete scenarios below override individual fields. -/
def baseReq : QuoteRequest :=
  ⟨"0", "0", 0, "0", "0", 0, "0", 0, "0", 0, "0", 0, "0", 0, [], []⟩

/-- One adult, everything else empty. -/
def oneAdultReq : QuoteRequest := { baseReq with num_adults := 1 }

/-- A request whose adult breakfast price text is negative. -/
def negMealReq0 : QuoteRequest := { baseReq with adult_breakfast_str := "-100" }

/-- `negMealReq0` with one adult taking breakfast. -/
def negMealReq : QuoteRequest := { negMealReq0 with adults_breakfast_count := 1 }

/-- One adult, a negative room base price text, and a 50% discount. -/
def discount50Req : QuoteRequest :=
  { baseReq with adult_base_str := "-100", adult_discount_str := "50%", num_adults := 1 }

/-- `discount50Req` with the discount raised to 150%. -/
def discount150Req : QuoteRequest := { discount50Req with adult_discount_str := "150%" }

/-- Evaluation helper: a successful parse determines `parse_price`. -/
theorem parse_price_of_parse {s : String} {f : FloatLit}
    (h : pyFloatParse? (pyStrip (removeMoneyChars s.data)) = some f) :
    parse_price s = f.val := by
  simp [parse_price, pyFloat?, h]

/-- Evaluation helper: a failed parse makes `parse_price` degrade to 0. -/
theorem parse_price_of_fail {s : String}
    (h : pyFloatParse? (pyStrip (removeMoneyChars s.data)) = none) :
    parse_price s = 0 := by
  simp [parse_price, pyFloat?, h]

/-- Evaluation helper for the percent branch of `parse_discount`. -/
theorem parse_discount_of_percent {s : String} {f : FloatLit}
    (hp : endsWithPercent (pyStrip s.data) = true)
    (h : pyFloatParse? (pyStrip s.data).dropLast = some f) :
    parse_discount s = (true, f.val) := by
  simp [parse_discount, pyFloat?, hp, h]

/-- Evaluation helper for the failing percent branch of `parse_discount`. -/
theorem parse_discount_of_percent_fail {s : String}
    (hp : endsWithPercent (pyStrip s.data) = true)
    (h : pyFloatParse? (pyStrip s.data).dropLast = none) :
    parse_discount s = (false, 0) := by
  simp [parse_discount, pyFloat?, hp, h]

/-- Evaluation helper for the absolute branch of `parse_discount`. -/
theorem parse_discount_of_abs {s : String} {f : FloatLit}
    (hp : endsWithPercent (pyStrip s.data) = false)
    (h : pyFloatParse? (pyStrip (removeMoneyChars (pyStrip s.data))) = some f) :
    parse_discount s = (false, f.val) := by
  simp [parse_discount, pyFloat?, hp, h]

/-- Evaluation helper for the failing absolute branch of `parse_discount`. -/
theorem parse_discount_of_abs_fail {s : String}
    (hp : endsWithPercent (pyStrip s.data) = false)
    (h : pyFloatParse? (pyStrip (removeMoneyChars (pyStrip s.data))) = none) :
    parse_discount s = (false, 0) := by
  simp [parse_discount, pyFloat?, hp, h]

/-- The floor in `apply_discount` makes every discounted price
non-negative. -/
theorem apply_discount_nonneg (b : ℚ) (s : String) : 0 ≤ apply_discount b s :=
  le_max_right _ _

/-- The extras accumulation loop computes the sum of the line totals. -/
theorem total_extras_eq_sum (l : List ExtraItem) :
    total_extras l = (l.map line_total).sum := by
  suffices h : ∀ (l : List ExtraItem) (a : ℚ),
      l.foldl (fun acc item => acc + line_total item) a = a + (l.map line_total).sum by
    simpa [total_extras] using h l 0
  intro l
  induction l with
  | nil => intro a; simp
  | cons x xs ih => intro a; simp [ih, add_assoc]

/-- Every extra-charge line total is non-negative. -/
theorem line_total_nonneg (item : ExtraItem) : 0 ≤ line_total item :=
  mul_nonneg (apply_discount_nonneg _ _) (Nat.cast_nonneg _)

/-- Every extras subtotal is non-negative. -/
theorem total_extras_nonneg (l : List ExtraItem) : 0 ≤ total_extras l := by
  rw [total_extras_eq_sum]
  refine List.sum_nonneg ?_
  intro x hx
  rcases List.mem_map.1 hx with ⟨it, _, rfl⟩
  exact line_total_nonneg it

/-- Splitting an extras subtotal around one item. -/
theorem total_extras_append (pre post : List ExtraItem) (it : ExtraItem) :
    total_extras (pre ++ it :: post)
      = total_extras pre + line_total it + total_extras post := by
  simp [total_extras_eq_sum]
  ring

/-- `apply_discount` is monotone in the base price on non-negative
bases. -/
theorem apply_discount_mono_base {b1 b2 : ℚ} (s : String)
    (h0 : 0 ≤ b1) (h : b1 ≤ b2) :
    apply_discount b1 s ≤ apply_discount b2 s := by
  unfold apply_discount
  by_cases hp : (parse_discount s).1
  · simp only [hp, if_true]
    rcases le_total ((parse_discount s).2 / 100) 1 with hc | hc
    · refine max_le_max ?_ le_rfl
      nlinarith [mul_nonneg (sub_nonneg.2 h) (sub_nonneg.2 hc)]
    · have h1 : b1 - b1 * ((parse_discount s).2 / 100) ≤ 0 := by nlinarith
      rw [max_eq_right h1]
      exact le_max_right _ _
  · simp only [Bool.not_eq_true] at hp
    simp only [hp, Bool.false_eq_true, if_false]
    exact max_le_max (by linarith) le_rfl

/-- Raising the parsed discount value (of either kind) never raises the
discounted price, provided the base is non-negative. -/
theorem apply_discount_anti {b : ℚ} {d1 d2 : String} (h0 : 0 ≤ b)
    (hk : (parse_discount d1).1 = (parse_discount d2).1)
    (hv : (parse_discount d1).2 ≤ (parse_discount d2).2) :
    apply_discount b d2 ≤ apply_discount b d1 := by
  unfold apply_discount
  by_cases hp : (parse_discount d1).1
  · have hp2 : (parse_discount d2).1 = true := hk ▸ hp
    simp only [hp, hp2, if_true]
    refine max_le_max ?_ le_rfl
    nlinarith [mul_le_mul_of_nonneg_left hv h0]
  · have hp2 : (parse_discount d2).1 = false := by
      rw [← hk]; exact Bool.not_eq_true _ ▸ (by simpa using hp)
    simp only [Bool.not_eq_true] at hp
    simp only [hp, hp2, Bool.false_eq_true, if_false]
    exact max_le_max (by linarith) le_rfl

/-- Line totals are monotone in parsed cost (when non-negative) and in
quantity, for a fixed discount text. -/
theorem line_total_mono {it it' : ExtraItem}
    (hd : it.discount_str = it'.discount_str)
    (hc0 : 0 ≤ parse_price it.cost_str)
    (hc : parse_price it.cost_str ≤ parse_price it'.cost_str)
    (hq : it.qty ≤ it'.qty) : line_total it ≤ line_total it' := by
  unfold line_total
  rw [hd]
  exact mul_le_mul (apply_discount_mono_base _ hc0 hc)
    (Nat.cast_le.2 hq) (Nat.cast_nonneg _) (apply_discount_nonneg _ _)

/-- Line totals are monotone in the quantity alone, with no hypothesis on
the cost text: the discounted unit price is already floored at 0. -/
theorem line_total_mono_qty {it it' : ExtraItem}
    (hc : it.cost_str = it'.cost_str) (hd : it.discount_str = it'.discount_str)
    (hq : it.qty ≤ it'.qty) : line_total it ≤ line_total it' := by
  unfold line_total
  rw [hc, hd]
  exact mul_le_mul_of_nonneg_left (Nat.cast_le.mpr hq) (apply_discount_nonneg _ _)

/-- Every character of a list is the stripped sign or survives
`stripSign`. -/
theorem stripSign_chars (cs : List Char) :
    ∀ c ∈ cs, c = '+' ∨ c = '-' ∨ c ∈ (stripSign cs).2 := by
  intro c hc
  unfold stripSign
  split
  · rcases List.mem_cons.1 hc with h | h
    · exact Or.inl h
    · exact Or.inr (Or.inr h)
  · rcases List.mem_cons.1 hc with h | h
    · exact Or.inr (Or.inl h)
    · exact Or.inr (Or.inr h)
  · exact Or.inr (Or.inr hc)

/-- Every character consumed by a successful `mantissa?` is a digit or
the decimal point; the rest is returned unchanged. -/
theorem mantissa_chars {cs : List Char} {m : ℕ × ℕ × ℕ} {rest : List Char}
    (h : mantissa? cs = some (m, rest)) :
    ∀ c ∈ cs, c.isDigit = true ∨ c = '.' ∨ c ∈ rest := by
  intro c hc
  rw [← List.takeWhile_append_dropWhile Char.isDigit cs] at hc
  rcases List.mem_append.1 hc with hd | hr
  · exact Or.inl (List.mem_takeWhile_imp hd)
  · simp only [mantissa?] at h
    split at h
    · rename_i r2 heq
      split at h
      · exact absurd h (by simp)
      · simp only [Option.some.injEq, Prod.mk.injEq] at h
        obtain ⟨-, hrest⟩ := h
        rw [heq] at hr
        rcases List.mem_cons.1 hr with h1 | h1
        · exact Or.inr (Or.inl h1)
        · rw [← List.takeWhile_append_dropWhile Char.isDigit r2] at h1
          rcases List.mem_append.1 h1 with h2 | h2
          · exact Or.inl (List.mem_takeWhile_imp h2)
          · exact Or.inr (Or.inr (hrest ▸ h2))
    · split at h
      · exact absurd h (by simp)
      · simp only [Option.some.injEq, Prod.mk.injEq] at h
        obtain ⟨-, hrest⟩ := h
        exact Or.inr (Or.inr (hrest ▸ hr))

/-- Every character accepted by a successful `expval?` is a sign, a digit
or whitespace. -/
theorem expval_chars {cs : List Char} {e : ℤ} (h : expval? cs = some e) :
    ∀ c ∈ cs, floatChar c = true := by
  intro c hc
  simp only [expval?] at h
  split at h
  · exact absurd h (by simp)
  · rename_i hcond
    rw [Bool.or_eq_true, not_or] at hcond
    have hws : ((stripSign cs).2.dropWhile Char.isDigit).all Char.isWhitespace = true := by
      simpa using hcond.2
    rcases stripSign_chars cs c hc with h1 | h1 | h1
    · simp [floatChar, h1]
    · simp [floatChar, h1]
    · rw [← List.takeWhile_append_dropWhile Char.isDigit (stripSign cs).2] at h1
      rcases List.mem_append.1 h1 with h2 | h2
      · simp [floatChar, List.mem_takeWhile_imp h2]
      · simp [floatChar, List.all_eq_true.1 hws c h2]

/-- Every character of a string accepted by `pyFloatParse?` is a
whitespace, sign, digit, decimal-point or exponent-marker character; in
particular no accepted string contains `¥` or `,`. -/
theorem pyFloatParse_chars {cs : List Char} {f : FloatLit}
    (h : pyFloatParse? cs = some f) : ∀ c ∈ cs, floatChar c = true := by
  intro c hc
  rw [← List.takeWhile_append_dropWhile Char.isWhitespace cs] at hc
  rcases List.mem_append.1 hc with hw | ht
  · simp [floatChar, List.mem_takeWhile_imp hw]
  · simp only [pyFloatParse?] at h
    rcases stripSign_chars (cs.dropWhile Char.isWhitespace) c ht with h1 | h1 | h1
    · simp [floatChar, h1]
    · simp [floatChar, h1]
    · rcases hm : mantissa? (stripSign (cs.dropWhile Char.isWhitespace)).2 with - | ⟨m, rest⟩
      · rw [hm] at h; exact absurd h (by simp)
      · rw [hm] at h
        rcases mantissa_chars hm c h1 with h2 | h2 | h2
        · simp [floatChar, h2]
        · simp [floatChar, h2]
        · cases rest with
          | nil => exact absurd h2 (List.not_mem_nil c)
          | cons d r2 =>
            dsimp only at h
            by_cases he : (d == 'e' || d == 'E') = true
            · rcases List.mem_cons.1 h2 with h3 | h3
              · have he' : d = 'e' ∨ d = 'E' := by
                  rw [Bool.or_eq_true] at he
                  rcases he with h4 | h4
                  · exact Or.inl (beq_iff_eq.1 h4)
                  · exact Or.inr (beq_iff_eq.1 h4)
                rcases he' with h4 | h4
                · simp [floatChar, h3, h4]
                · simp [floatChar, h3, h4]
              · rw [if_pos he] at h
                rcases hx : expval? r2 with - | e
                · rw [hx] at h; exact absurd h (by simp)
                · exact expval_chars hx c h3
            · rw [if_neg he] at h
              split at h
              · rename_i hws
                simp [floatChar, List.all_eq_true.1 hws c h2]
              · exact absurd h (by simp)

/-- Concrete value: the default text "0" parses to 0. -/
theorem parse_price_zero : parse_price "0" = 0 := by
  rw [@parse_price_of_parse _ ⟨false, 0, 0, 0, 0⟩ (by decide)]
  norm_num [FloatLit.val]

/-- Concrete value: `parse_price "-100" = -100`. -/
theorem parse_price_neg100 : parse_price "-100" = -100 := by
  rw [@parse_price_of_parse _ ⟨true, 100, 0, 0, 0⟩ (by decide)]
  norm_num [FloatLit.val]

/-- Concrete value: the default discount text "0" is an absolute zero
discount. -/
theorem parse_discount_zero : parse_discount "0" = (false, 0) := by
  rw [@parse_discount_of_abs _ ⟨false, 0, 0, 0, 0⟩ (by decide) (by decide)]
  simp only [Prod.mk.injEq, true_and]
  norm_num [FloatLit.val]

/-- Concrete value: `parse_discount "50%" = Percent 50`. -/
theorem parse_discount_50pct : parse_discount "50%" = (true, 50) := by
  rw [@parse_discount_of_percent _ ⟨false, 50, 0, 0, 0⟩ (by decide) (by decide)]
  simp only [Prod.mk.injEq, true_and]
  norm_num [FloatLit.val]

/-- Concrete value: `parse_discount "150%" = Percent 150`. -/
theorem parse_discount_150pct : parse_discount "150%" = (true, 150) := by
  rw [@parse_discount_of_percent _ ⟨false, 150, 0, 0, 0⟩ (by decide) (by decide)]
  simp only [Prod.mk.injEq, true_and]
  norm_num [FloatLit.val]

/-- Concrete value: a "0" discount leaves a price at `max price 0`. -/
theorem apply_discount_zero_str (b : ℚ) : apply_discount b "0" = max b 0 := by
  rw [apply_discount, parse_discount_zero]
  norm_num

end Wakaraku

namespace Wakaraku

example : parse_price "¥30,000" = 30000 := by
  rw [@parse_price_of_parse _ ⟨false, 30000, 0, 0, 0⟩ (by decide)]
  norm_num [FloatLit.val]

example : parse_price "abc" = 0 := by
  rw [parse_price_of_fail (by decide)]

example : parse_price "" = 0 := by
  rw [parse_price_of_fail (by decide)]

example : parse_price "-500" = -500 := by
  rw [@parse_price_of_parse _ ⟨true, 500, 0, 0, 0⟩ (by decide)]
  norm_num [FloatLit.val]

example : parse_discount "10%" = (true, 10) := by
  rw [@parse_discount_of_percent _ ⟨false, 10, 0, 0, 0⟩ (by decide) (by decide)]
  norm_num [FloatLit.val]

example : parse_discount "¥2000" = (false, 2000) := by
  rw [@parse_discount_of_abs _ ⟨false, 2000, 0, 0, 0⟩ (by decide) (by decide)]
  norm_num [FloatLit.val]

example : parse_discount "abc%" = (false, 0) := by
  rw [parse_discount_of_percent_fail (by decide) (by decide)]

example : parse_discount "1,000%" = (false, 0) := by
  rw [parse_discount_of_percent_fail (by decide) (by decide)]

example : apply_discount 30000 "10%" = 27000 := by
  rw [apply_discount, @parse_discount_of_percent _ ⟨false, 10, 0, 0, 0⟩ (by decide) (by decide)]
  norm_num [FloatLit.val]

example : apply_discount 30000 "¥40000" = 0 := by
  rw [apply_discount, @parse_discount_of_abs _ ⟨false, 40000, 0, 0, 0⟩ (by decide) (by decide)]
  norm_num [FloatLit.val]

example : parse_price "1.5e2" = 150 := by
  rw [@parse_price_of_parse _ ⟨false, 1, 5, 1, 2⟩ (by decide)]
  norm_num [FloatLit.val]

example : parse_price " +12.25 " = 49/4 := by
  rw [@parse_price_of_parse _ ⟨false, 12, 25, 2, 0⟩ (by decide)]
  norm_num [FloatLit.val]

example : parse_price "1e-2" = 1/100 := by
  rw [@parse_price_of_parse _ ⟨false, 1, 0, 0, -2⟩ (by decide)]
  norm_num [FloatLit.val]

example : parse_price "1.2.3" = 0 := by
  rw [parse_price_of_fail (by decide)]

example : parse_price "." = 0 := by
  rw [parse_price_of_fail (by decide)]

example : parse_price "10." = 10 := by
  rw [@parse_price_of_parse _ ⟨false, 10, 0, 0, 0⟩ (by decide)]
  norm_num [FloatLit.val]

example : parse_price ".5" = 1/2 := by
  rw [@parse_price_of_parse _ ⟨false, 0, 5, 1, 0⟩ (by decide)]
  norm_num [FloatLit.val]

end Wakaraku

namespace Wakaraku

/-- C1: for every request, the grand total equals the sum of the six
subtotals: each room subtotal is
`applyDiscount(parseAmount(baseText), parseDiscount(discountText)) × count`,
each meal subtotal is
`breakfastUnitPrice × breakfastCount + dinnerUnitPrice × dinnerCount` with
no discount applied to meal unit prices, and each extras subtotal is the
sum over the item list of
`applyDiscount(parseAmount(costText), parseDiscount(discountText)) × quantity`. -/
theorem C1_grand_total_breakdown (r : QuoteRequest) :
    grand_total r =
      apply_discount (parse_price r.adult_base_str) r.adult_discount_str * r.num_adults
      + apply_discount (parse_price r.child_base_str) r.child_discount_str * r.num_children
      + (parse_price r.adult_breakfast_str * r.adults_breakfast_count
          + parse_price r.adult_dinner_str * r.adults_dinner_count)
      + (parse_price r.child_breakfast_str * r.children_breakfast_count
          + parse_price r.child_dinner_str * r.children_dinner_count)
      + (r.adult_extra_items.map
          (fun it => apply_discount (parse_price it.cost_str) it.discount_str * it.qty)).sum
      + (r.child_extra_items.map
          (fun it => apply_discount (parse_price it.cost_str) it.discount_str * it.qty)).sum := by
  simp only [grand_total, total_adult_cost, total_child_cost, total_adult_meal_cost,
    total_child_meal_cost, total_extras_eq_sum]
  rfl

/-- C2: `applyDiscount` subtracts `base × (p / 100)` for a percent
discount and `a` for an absolute one, floors strictly negative results to
0, passes an exact 0 through unchanged, and accepts a percent above 100
(e.g. 150%), flooring the result to 0 instead of rejecting it. -/
theorem C2_apply_discount_floor (base : ℚ) (s : String) :
    (apply_discount base s =
      if (if (parse_discount s).1 then base - base * ((parse_discount s).2 / 100)
          else base - (parse_discount s).2) < 0 then 0
      else if (parse_discount s).1 then base - base * ((parse_discount s).2 / 100)
          else base - (parse_discount s).2)
    ∧ parse_discount "150%" = (true, 150)
    ∧ apply_discount 30000 "150%" = 0 := by
  refine ⟨?_, parse_discount_150pct, ?_⟩
  · rw [apply_discount]
    rcases lt_or_le (if (parse_discount s).1 then base - base * ((parse_discount s).2 / 100)
        else base - (parse_discount s).2) 0 with hd | hd
    · rw [if_pos hd, max_eq_right hd.le]
    · rw [if_neg (not_lt.2 hd), max_eq_left hd]
  · rw [apply_discount, parse_discount_150pct]
    norm_num [max_def]

/-- C4: `parseDiscount` trims its input; on a trailing `%` it parses the
prefix as a float, giving `Percent(value)`, and degrades to `Absolute(0)`
(never `Percent(0)`) when that fails; without a trailing `%` it parses the
trimmed text exactly as `parseAmount` does and wraps it as
`Absolute(value)`.  In particular `parseDiscount "10%" = Percent 10`,
`parseDiscount "¥2000" = Absolute 2000` and
`parseDiscount "abc%" = Absolute 0`. -/
theorem C4_parse_discount_spec (s : String) :
    (parse_discount s =
      if endsWithPercent (pyStrip s.data) then
        match pyFloat? (pyStrip s.data).dropLast with
        | some v => ((true : Bool), v)
        | none => ((false : Bool), (0 : ℚ))
      else ((false : Bool), parse_price (String.mk (pyStrip s.data))))
    ∧ parse_discount "10%" = (true, 10)
    ∧ parse_discount "¥2000" = (false, 2000)
    ∧ parse_discount "abc%" = (false, 0) := by
  refine ⟨?_, ?_, ?_, ?_⟩
  · by_cases hp : endsWithPercent (pyStrip s.data)
    · simp only [parse_discount, hp, if_true]
    · simp only [parse_discount, parse_price, hp, Bool.false_eq_true, if_false]
      cases hx : pyFloat? (pyStrip (removeMoneyChars (pyStrip s.data))) <;> simp [hx]
  · rw [@parse_discount_of_percent _ ⟨false, 10, 0, 0, 0⟩ (by decide) (by decide)]
    simp only [Prod.mk.injEq, true_and]
    norm_num [FloatLit.val]
  · rw [@parse_discount_of_abs _ ⟨false, 2000, 0, 0, 0⟩ (by decide) (by decide)]
    simp only [Prod.mk.injEq, true_and]
    norm_num [FloatLit.val]
  · exact parse_discount_of_percent_fail (by decide) (by decide)

/-- C5: `parseAmount` strips the `¥` glyph, every `,` and surrounding
whitespace, parses the remainder as a float, returns 0.0 on any failure
instead of failing, and returns negative numeric text unclamped.
In particular `parseAmount "¥30,000" = 30000`, `parseAmount "abc" = 0`
and `parseAmount "" = 0`. -/
theorem C5_parse_price_spec (s : String) :
    parse_price s
      = ((pyFloatParse? (pyStrip (removeMoneyChars s.data))).map FloatLit.val).getD 0
    ∧ parse_price "¥30,000" = 30000
    ∧ parse_price "abc" = 0
    ∧ parse_price "" = 0
    ∧ parse_price "-500" = -500 := by
  refine ⟨?_, ?_, ?_, ?_, ?_⟩
  · cases hx : pyFloatParse? (pyStrip (removeMoneyChars s.data)) <;>
      simp [parse_price, pyFloat?, hx]
  · rw [@parse_price_of_parse _ ⟨false, 30000, 0, 0, 0⟩ (by decide)]
    norm_num [FloatLit.val]
  · exact parse_price_of_fail (by decide)
  · exact parse_price_of_fail (by decide)
  · rw [@parse_price_of_parse _ ⟨true, 500, 0, 0, 0⟩ (by decide)]
    norm_num [FloatLit.val]

/-- C7: parsing is total and never raises: on any failed float
conversion, `parse_price` returns the default 0.0 and `parse_discount`
returns the "no discount" value `(False, 0.0)` in both of its branches,
rather than propagating an error. -/
theorem C7_parsing_never_fails (s : String) :
    (pyFloatParse? (pyStrip (removeMoneyChars s.data)) = none → parse_price s = 0)
    ∧ (endsWithPercent (pyStrip s.data) = true →
        pyFloatParse? (pyStrip s.data).dropLast = none → parse_discount s = (false, 0))
    ∧ (endsWithPercent (pyStrip s.data) = false →
        pyFloatParse? (pyStrip (removeMoneyChars (pyStrip s.data))) = none →
        parse_discount s = (false, 0))
    ∧ parse_price "not a number" = 0
    ∧ parse_discount "n/a" = (false, 0) := by
  refine ⟨parse_price_of_fail, parse_discount_of_percent_fail,
    parse_discount_of_abs_fail, ?_, ?_⟩
  · exact parse_price_of_fail (by decide)
  · exact parse_discount_of_abs_fail (by decide) (by decide)

/-- Witness for C7 at concrete malformed inputs. -/
theorem C7_witness :
    parse_price "abc" = 0 ∧ parse_discount "abc%" = (false, 0)
    ∧ parse_discount "xyz" = (false, 0) :=
  ⟨(C7_parsing_never_fails "abc").1 (by decide),
   (C7_parsing_never_fails "abc%").2.1 (by decide) (by decide),
   (C7_parsing_never_fails "xyz").2.2.1 (by decide) (by decide)⟩

/-- C8 (modelled from the spec; src/app.py has no cost-per-guest code):
`costPerGuest` is `grandTotal / (adultCount + childCount)` whenever the
total guest count is positive, and 0 when both counts are 0, with no
division-by-zero fault. -/
theorem C8_cost_per_guest (r : QuoteRequest) :
    (0 < r.num_adults + r.num_children →
      cost_per_guest r = grand_total r / ((r.num_adults : ℚ) + (r.num_children : ℚ)))
    ∧ (r.num_adults = 0 → r.num_children = 0 → cost_per_guest r = 0) := by
  constructor
  · intro h
    rw [cost_per_guest, if_pos h]
  · intro h1 h2
    rw [cost_per_guest, if_neg (by simp [h1, h2])]

/-- Witness for C8: one adult, and the zero-guest request. -/
theorem C8_witness :
    cost_per_guest oneAdultReq
      = grand_total oneAdultReq
          / ((oneAdultReq.num_adults : ℚ) + (oneAdultReq.num_children : ℚ))
    ∧ cost_per_guest baseReq = 0 :=
  ⟨(C8_cost_per_guest oneAdultReq).1 (by decide),
   (C8_cost_per_guest baseReq).2 rfl rfl⟩

/-- C9: for a non-negative base, a discount whose parsed value is
non-negative can only lower the price (`applyDiscount base text ≤ base`),
but a discount text with a negative parsed value such as "-500" raises
the price above the base: an unchecked surcharge. -/
theorem C9_discount_bound (b : ℚ) (hb : 0 ≤ b) :
    (∀ s : String, 0 ≤ (parse_discount s).2 → apply_discount b s ≤ b)
    ∧ (parse_discount "-500").2 < 0
    ∧ b < apply_discount b "-500" := by
  have hd : parse_discount "-500" = (false, FloatLit.val ⟨true, 500, 0, 0, 0⟩) :=
    @parse_discount_of_abs _ ⟨true, 500, 0, 0, 0⟩ (by decide) (by decide)
  have hv : FloatLit.val ⟨true, 500, 0, 0, 0⟩ = -500 := by norm_num [FloatLit.val]
  refine ⟨?_, ?_, ?_⟩
  · intro s hv'
    rw [apply_discount]
    by_cases hp : (parse_discount s).1
    · rw [if_pos hp]
      refine max_le ?_ hb
      nlinarith
    · rw [if_neg hp]
      refine max_le ?_ hb
      linarith
  · rw [hd, hv]
    norm_num
  · rw [apply_discount, hd, hv]
    simp only [Bool.false_eq_true, if_false]
    have h2 := le_max_left (b - (-500 : ℚ)) 0
    linarith

/-- Witness for C9 at base 30000 with discounts "10%" and "-500". -/
theorem C9_witness :
    apply_discount 30000 "10%" ≤ 30000 ∧ (30000 : ℚ) < apply_discount 30000 "-500" := by
  have h := C9_discount_bound 30000 (by norm_num)
  refine ⟨h.1 "10%" ?_, h.2.2⟩
  rw [@parse_discount_of_percent _ ⟨false, 10, 0, 0, 0⟩ (by decide) (by decide)]
  norm_num [FloatLit.val]

end Wakaraku

namespace Wakaraku

/-- C3 (amended): room and extras subtotals are non-negative for every
request, because the discounted unit price is floored at 0 before
multiplication; the meal subtotals and the grand total are non-negative
provided every parsed meal unit price is non-negative (meal prices are
never floored, so this hypothesis is needed — see the counterexample). -/
theorem C3_subtotals_nonneg (r : QuoteRequest) :
    0 ≤ total_adult_cost r ∧ 0 ≤ total_child_cost r
    ∧ 0 ≤ total_extras r.adult_extra_items ∧ 0 ≤ total_extras r.child_extra_items
    ∧ (0 ≤ parse_price r.adult_breakfast_str → 0 ≤ parse_price r.adult_dinner_str →
       0 ≤ parse_price r.child_breakfast_str → 0 ≤ parse_price r.child_dinner_str →
       0 ≤ total_adult_meal_cost r ∧ 0 ≤ total_child_meal_cost r ∧ 0 ≤ grand_total r) := by
  have r1 : 0 ≤ total_adult_cost r := mul_nonneg (apply_discount_nonneg _ _) (Nat.cast_nonneg _)
  have r2 : 0 ≤ total_child_cost r := mul_nonneg (apply_discount_nonneg _ _) (Nat.cast_nonneg _)
  have e1 := total_extras_nonneg r.adult_extra_items
  have e2 := total_extras_nonneg r.child_extra_items
  refine ⟨r1, r2, e1, e2, ?_⟩
  intro h1 h2 h3 h4
  have m1 : 0 ≤ total_adult_meal_cost r :=
    add_nonneg (mul_nonneg h1 (Nat.cast_nonneg _)) (mul_nonneg h2 (Nat.cast_nonneg _))
  have m2 : 0 ≤ total_child_meal_cost r :=
    add_nonneg (mul_nonneg h3 (Nat.cast_nonneg _)) (mul_nonneg h4 (Nat.cast_nonneg _))
  refine ⟨m1, m2, ?_⟩
  rw [grand_total]
  linarith

/-- Witness for C3 at the all-zero request. -/
theorem C3_witness : 0 ≤ total_adult_cost baseReq ∧ 0 ≤ grand_total baseReq := by
  have h := C3_subtotals_nonneg baseReq
  have hz : (0 : ℚ) ≤ parse_price "0" := le_of_eq parse_price_zero.symm
  exact ⟨h.1, (h.2.2.2.2 hz hz hz hz).2.2⟩

/-- Counterexample to C3 as stated: with the adult breakfast price text
"-100" and one adult taking breakfast (all other fields zero), the grand
total — and the adult meal subtotal — is negative: `parse_price` accepts
negative text and meal prices are multiplied by their counts without any
floor. -/
theorem C3_counterexample : grand_total negMealReq < 0 := by
  simp only [grand_total, total_adult_cost, total_child_cost, total_adult_meal_cost,
    total_child_meal_cost, total_extras, List.foldl_nil, negMealReq, negMealReq0, baseReq]
  rw [parse_price_zero, parse_price_neg100]
  norm_num

end Wakaraku

namespace Wakaraku

/-- C6 (amended): monotonicity of the quote.  Increasing a guest count,
a parsed meal unit price, or an extra item's quantity never decreases
the grand total, unconditionally (meal counts and the floored extras
unit price are non-negative); increasing a meal count never decreases it
provided that meal's parsed unit price is non-negative; increasing a
parsed room base price or extra-item cost price, starting from a
non-negative one, never decreases it; and increasing the parsed discount
value (of unchanged kind) of a room or extra-item discount field never
increases the corresponding subtotal, provided the corresponding parsed
base price is non-negative.  The remaining non-negativity hypotheses are
forced — see the counterexample. -/
theorem C6_monotone :
    (∀ (r : QuoteRequest) (n1 n2 : ℕ), n1 ≤ n2 →
      grand_total { r with num_adults := n1 } ≤ grand_total { r with num_adults := n2 })
    ∧ (∀ (r : QuoteRequest) (n1 n2 : ℕ), n1 ≤ n2 →
      grand_total { r with num_children := n1 } ≤ grand_total { r with num_children := n2 })
    ∧ (∀ (r : QuoteRequest) (n1 n2 : ℕ), 0 ≤ parse_price r.adult_breakfast_str → n1 ≤ n2 →
      grand_total { r with adults_breakfast_count := n1 }
        ≤ grand_total { r with adults_breakfast_count := n2 })
    ∧ (∀ (r : QuoteRequest) (n1 n2 : ℕ), 0 ≤ parse_price r.adult_dinner_str → n1 ≤ n2 →
      grand_total { r with adults_dinner_count := n1 }
        ≤ grand_total { r with adults_dinner_count := n2 })
    ∧ (∀ (r : QuoteRequest) (n1 n2 : ℕ), 0 ≤ parse_price r.child_breakfast_str → n1 ≤ n2 →
      grand_total { r with children_breakfast_count := n1 }
        ≤ grand_total { r with children_breakfast_count := n2 })
    ∧ (∀ (r : QuoteRequest) (n1 n2 : ℕ), 0 ≤ parse_price r.child_dinner_str → n1 ≤ n2 →
      grand_total { r with children_dinner_count := n1 }
        ≤ grand_total { r with children_dinner_count := n2 })
    ∧ (∀ (r : QuoteRequest) (s1 s2 : String),
      0 ≤ parse_price s1 → parse_price s1 ≤ parse_price s2 →
      grand_total { r with adult_base_str := s1 } ≤ grand_total { r with adult_base_str := s2 })
    ∧ (∀ (r : QuoteRequest) (s1 s2 : String),
      0 ≤ parse_price s1 → parse_price s1 ≤ parse_price s2 →
      grand_total { r with child_base_str := s1 } ≤ grand_total { r with child_base_str := s2 })
    ∧ (∀ (r : QuoteRequest) (s1 s2 : String), parse_price s1 ≤ parse_price s2 →
      grand_total { r with adult_breakfast_str := s1 }
        ≤ grand_total { r with adult_breakfast_str := s2 })
    ∧ (∀ (r : QuoteRequest) (s1 s2 : String), parse_price s1 ≤ parse_price s2 →
      grand_total { r with adult_dinner_str := s1 }
        ≤ grand_total { r with adult_dinner_str := s2 })
    ∧ (∀ (r : QuoteRequest) (s1 s2 : String), parse_price s1 ≤ parse_price s2 →
      grand_total { r with child_breakfast_str := s1 }
        ≤ grand_total { r with child_breakfast_str := s2 })
    ∧ (∀ (r : QuoteRequest) (s1 s2 : String), parse_price s1 ≤ parse_price s2 →
      grand_total { r with child_dinner_str := s1 }
        ≤ grand_total { r with child_dinner_str := s2 })
    ∧ (∀ (r : QuoteRequest) (pre post : List ExtraItem) (it it' : ExtraItem),
      it.cost_str = it'.cost_str → it.discount_str = it'.discount_str → it.qty ≤ it'.qty →
      grand_total { r with adult_extra_items := pre ++ it :: post }
        ≤ grand_total { r with adult_extra_items := pre ++ it' :: post })
    ∧ (∀ (r : QuoteRequest) (pre post : List ExtraItem) (it it' : ExtraItem),
      it.cost_str = it'.cost_str → it.discount_str = it'.discount_str → it.qty ≤ it'.qty →
      grand_total { r with child_extra_items := pre ++ it :: post }
        ≤ grand_total { r with child_extra_items := pre ++ it' :: post })
    ∧ (∀ (r : QuoteRequest) (pre post : List ExtraItem) (it it' : ExtraItem),
      it.discount_str = it'.discount_str → it.qty = it'.qty →
      0 ≤ parse_price it.cost_str → parse_price it.cost_str ≤ parse_price it'.cost_str →
      grand_total { r with adult_extra_items := pre ++ it :: post }
        ≤ grand_total { r with adult_extra_items := pre ++ it' :: post })
    ∧ (∀ (r : QuoteRequest) (pre post : List ExtraItem) (it it' : ExtraItem),
      it.discount_str = it'.discount_str → it.qty = it'.qty →
      0 ≤ parse_price it.cost_str → parse_price it.cost_str ≤ parse_price it'.cost_str →
      grand_total { r with child_extra_items := pre ++ it :: post }
        ≤ grand_total { r with child_extra_items := pre ++ it' :: post })
    ∧ (∀ (r : QuoteRequest) (s1 s2 : String), 0 ≤ parse_price r.adult_base_str →
      (parse_discount s1).1 = (parse_discount s2).1 →
      (parse_discount s1).2 ≤ (parse_discount s2).2 →
      total_adult_cost { r with adult_discount_str := s2 }
        ≤ total_adult_cost { r with adult_discount_str := s1 })
    ∧ (∀ (r : QuoteRequest) (s1 s2 : String), 0 ≤ parse_price r.child_base_str →
      (parse_discount s1).1 = (parse_discount s2).1 →
      (parse_discount s1).2 ≤ (parse_discount s2).2 →
      total_child_cost { r with child_discount_str := s2 }
        ≤ total_child_cost { r with child_discount_str := s1 })
    ∧ (∀ (pre post : List ExtraItem) (it it' : ExtraItem),
      it.cost_str = it'.cost_str → it.qty = it'.qty → 0 ≤ parse_price it.cost_str →
      (parse_discount it.discount_str).1 = (parse_discount it'.discount_str).1 →
      (parse_discount it.discount_str).2 ≤ (parse_discount it'.discount_str).2 →
      total_extras (pre ++ it' :: post) ≤ total_extras (pre ++ it :: post)) := by
  refine ⟨?_, ?_, ?_, ?_, ?_, ?_, ?_, ?_, ?_, ?_, ?_, ?_, ?_, ?_, ?_, ?_, ?_, ?_, ?_⟩
  · intro r n1 n2 h
    simp only [grand_total, total_adult_cost, total_child_cost, total_adult_meal_cost,
      total_child_meal_cost]
    have hm := mul_le_mul_of_nonneg_left (Nat.cast_le.mpr h : (n1 : ℚ) ≤ n2)
      (apply_discount_nonneg (parse_price r.adult_base_str) r.adult_discount_str)
    linarith
  · intro r n1 n2 h
    simp only [grand_total, total_adult_cost, total_child_cost, total_adult_meal_cost,
      total_child_meal_cost]
    have hm := mul_le_mul_of_nonneg_left (Nat.cast_le.mpr h : (n1 : ℚ) ≤ n2)
      (apply_discount_nonneg (parse_price r.child_base_str) r.child_discount_str)
    linarith
  · intro r n1 n2 hp h
    simp only [grand_total, total_adult_cost, total_child_cost, total_adult_meal_cost,
      total_child_meal_cost]
    have hm := mul_le_mul_of_nonneg_left (Nat.cast_le.mpr h : (n1 : ℚ) ≤ n2) hp
    linarith
  · intro r n1 n2 hp h
    simp only [grand_total, total_adult_cost, total_child_cost, total_adult_meal_cost,
      total_child_meal_cost]
    have hm := mul_le_mul_of_nonneg_left (Nat.cast_le.mpr h : (n1 : ℚ) ≤ n2) hp
    linarith
  · intro r n1 n2 hp h
    simp only [grand_total, total_adult_cost, total_child_cost, total_adult_meal_cost,
      total_child_meal_cost]
    have hm := mul_le_mul_of_nonneg_left (Nat.cast_le.mpr h : (n1 : ℚ) ≤ n2) hp
    linarith
  · intro r n1 n2 hp h
    simp only [grand_total, total_adult_cost, total_child_cost, total_adult_meal_cost,
      total_child_meal_cost]
    have hm := mul_le_mul_of_nonneg_left (Nat.cast_le.mpr h : (n1 : ℚ) ≤ n2) hp
    linarith
  · intro r s1 s2 h0 h
    simp only [grand_total, total_adult_cost, total_child_cost, total_adult_meal_cost,
      total_child_meal_cost]
    have hm := mul_le_mul_of_nonneg_right (apply_discount_mono_base r.adult_discount_str h0 h)
      (Nat.cast_nonneg r.num_adults)
    linarith
  · intro r s1 s2 h0 h
    simp only [grand_total, total_adult_cost, total_child_cost, total_adult_meal_cost,
      total_child_meal_cost]
    have hm := mul_le_mul_of_nonneg_right (apply_discount_mono_base r.child_discount_str h0 h)
      (Nat.cast_nonneg r.num_children)
    linarith
  · intro r s1 s2 h
    simp only [grand_total, total_adult_cost, total_child_cost, total_adult_meal_cost,
      total_child_meal_cost]
    have hm := mul_le_mul_of_nonneg_right h (Nat.cast_nonneg r.adults_breakfast_count)
    linarith
  · intro r s1 s2 h
    simp only [grand_total, total_adult_cost, total_child_cost, total_adult_meal_cost,
      total_child_meal_cost]
    have hm := mul_le_mul_of_nonneg_right h (Nat.cast_nonneg r.adults_dinner_count)
    linarith
  · intro r s1 s2 h
    simp only [grand_total, total_adult_cost, total_child_cost, total_adult_meal_cost,
      total_child_meal_cost]
    have hm := mul_le_mul_of_nonneg_right h (Nat.cast_nonneg r.children_breakfast_count)
    linarith
  · intro r s1 s2 h
    simp only [grand_total, total_adult_cost, total_child_cost, total_adult_meal_cost,
      total_child_meal_cost]
    have hm := mul_le_mul_of_nonneg_right h (Nat.cast_nonneg r.children_dinner_count)
    linarith
  · intro r pre post it it' hc hd hq
    simp only [grand_total, total_adult_cost, total_child_cost, total_adult_meal_cost,
      total_child_meal_cost]
    rw [total_extras_append pre post it, total_extras_append pre post it']
    have hm := line_total_mono_qty hc hd hq
    linarith
  · intro r pre post it it' hc hd hq
    simp only [grand_total, total_adult_cost, total_child_cost, total_adult_meal_cost,
      total_child_meal_cost]
    rw [total_extras_append pre post it, total_extras_append pre post it']
    have hm := line_total_mono_qty hc hd hq
    linarith
  · intro r pre post it it' hd hq hc0 hc
    simp only [grand_total, total_adult_cost, total_child_cost, total_adult_meal_cost,
      total_child_meal_cost]
    rw [total_extras_append pre post it, total_extras_append pre post it']
    have hm := line_total_mono hd hc0 hc (le_of_eq hq)
    linarith
  · intro r pre post it it' hd hq hc0 hc
    simp only [grand_total, total_adult_cost, total_child_cost, total_adult_meal_cost,
      total_child_meal_cost]
    rw [total_extras_append pre post it, total_extras_append pre post it']
    have hm := line_total_mono hd hc0 hc (le_of_eq hq)
    linarith
  · intro r s1 s2 h0 hk hv
    simp only [total_adult_cost]
    exact mul_le_mul_of_nonneg_right (apply_discount_anti h0 hk hv) (Nat.cast_nonneg _)
  · intro r s1 s2 h0 hk hv
    simp only [total_child_cost]
    exact mul_le_mul_of_nonneg_right (apply_discount_anti h0 hk hv) (Nat.cast_nonneg _)
  · intro pre post it it' hcs hq h0 hk hv
    rw [total_extras_append pre post it', total_extras_append pre post it]
    have hlt : line_total it' ≤ line_total it := by
      unfold line_total
      rw [← hcs, ← hq]
      exact mul_le_mul_of_nonneg_right (apply_discount_anti h0 hk hv) (Nat.cast_nonneg _)
    linarith

/-- Witness for C6 at concrete counts, prices and discounts. -/
theorem C6_witness :
    grand_total { baseReq with num_adults := 0 } ≤ grand_total { baseReq with num_adults := 2 }
    ∧ grand_total { baseReq with adults_breakfast_count := 0 }
        ≤ grand_total { baseReq with adults_breakfast_count := 3 }
    ∧ grand_total { baseReq with adult_extra_items := [⟨"spa", "0", 1, "0"⟩] }
        ≤ grand_total { baseReq with adult_extra_items := [⟨"spa", "0", 2, "0"⟩] }
    ∧ total_adult_cost { oneAdultReq with adult_discount_str := "150%" }
        ≤ total_adult_cost { oneAdultReq with adult_discount_str := "50%" } := by
  obtain ⟨h1, -, h3, -, -, -, -, -, -, -, -, -, h13, -, -, -, h17, -, -⟩ := C6_monotone
  have hz : (0 : ℚ) ≤ parse_price "0" := le_of_eq parse_price_zero.symm
  refine ⟨h1 baseReq 0 2 (by norm_num), h3 baseReq 0 3 hz (by norm_num),
    h13 baseReq [] [] ⟨"spa", "0", 1, "0"⟩ ⟨"spa", "0", 2, "0"⟩ rfl rfl (by norm_num), ?_⟩
  refine h17 oneAdultReq "50%" "150%" hz ?_ ?_
  · rw [parse_discount_50pct, parse_discount_150pct]
  · rw [parse_discount_50pct, parse_discount_150pct]
    norm_num

/-- Counterexample to C6 as stated: with the negative breakfast price
text "-100", raising the breakfast count from 0 to 1 strictly decreases
the grand total; and with a negative room base price "-100", raising the
percent discount from 50% to 150% strictly increases the room subtotal. -/
theorem C6_counterexample :
    grand_total { negMealReq0 with adults_breakfast_count := 1 }
      < grand_total { negMealReq0 with adults_breakfast_count := 0 }
    ∧ (parse_discount "50%").1 = (parse_discount "150%").1
    ∧ (parse_discount "50%").2 ≤ (parse_discount "150%").2
    ∧ total_adult_cost discount50Req < total_adult_cost discount150Req := by
  refine ⟨?_, ?_, ?_, ?_⟩
  · simp only [grand_total, total_adult_cost, total_child_cost, total_adult_meal_cost,
      total_child_meal_cost, total_extras, List.foldl_nil, negMealReq0, baseReq]
    rw [parse_price_zero, parse_price_neg100]
    norm_num
  · rw [parse_discount_50pct, parse_discount_150pct]
  · rw [parse_discount_50pct, parse_discount_150pct]
    norm_num
  · simp only [total_adult_cost, discount150Req, discount50Req, baseReq]
    rw [parse_price_neg100]
    simp only [apply_discount, parse_discount_50pct, parse_discount_150pct]
    norm_num [max_def]

end Wakaraku

namespace Wakaraku

/-- C10: the percent branch of `parse_discount` does not strip `¥` or `,`
from the prefix before converting it (unlike the absolute branch and
`parse_price`), so every percent-suffixed text whose prefix contains such
a character fails the prefix parse and degrades to `Absolute(0)` — no
discount — rather than a percent discount.  E.g. "1,000%" and "¥10%"
yield `(False, 0)`, while `parse_price` itself does strip the separator
("1,000" parses to 1000). -/
theorem C10_percent_prefix_unstripped (s : String) :
    (endsWithPercent (pyStrip s.data) = true →
      ('¥' ∈ (pyStrip s.data).dropLast ∨ ',' ∈ (pyStrip s.data).dropLast) →
      parse_discount s = (false, 0))
    ∧ parse_discount "1,000%" = (false, 0)
    ∧ parse_discount "¥10%" = (false, 0)
    ∧ parse_price "1,000" = 1000 := by
  refine ⟨?_, ?_, ?_, ?_⟩
  · intro hp hbad
    have hnone : pyFloatParse? (pyStrip s.data).dropLast = none := by
      rcases hx : pyFloatParse? (pyStrip s.data).dropLast with - | f
      · rfl
      · exfalso
        rcases hbad with hb | hb
        · exact absurd (pyFloatParse_chars hx '¥' hb) (by decide)
        · exact absurd (pyFloatParse_chars hx ',' hb) (by decide)
    exact parse_discount_of_percent_fail hp hnone
  · exact parse_discount_of_percent_fail (by decide) (by decide)
  · exact parse_discount_of_percent_fail (by decide) (by decide)
  · rw [@parse_price_of_parse _ ⟨false, 1000, 0, 0, 0⟩ (by decide)]
    norm_num [FloatLit.val]

/-- Witness for C10 at the percent text "12,5%". -/
theorem C10_witness : parse_discount "12,5%" = (false, 0) :=
  (C10_percent_prefix_unstripped "12,5%").1 (by decide) (Or.inr (by decide))

end Wakaraku
